import Mathlib

/-!
Verification of the course-management core of SAHANI3829/my-uni-project.

The authorization layer of the application lives in the PostgreSQL
row-level-security policies of
src/supabase/migrations/20251119074224_bf978d2f-fa61-4042-bf0f-afa33bb4b49e.sql.
Each policy USING / WITH CHECK clause is embedded below as a boolean
predicate over a database snapshot; the store operations (insert, update,
select) follow PostgreSQL RLS semantics: an INSERT whose row violates every
applicable WITH CHECK clause raises an error, a SELECT silently filters out
rows failing every USING clause, an UPDATE silently skips rows failing every
USING clause and raises an error only when an updated row violates the
check on the new row, and a declared UNIQUE constraint makes a duplicate
insert fail with a conflict.

Client-side operations are embedded from src/src/pages/EnrollmentsPage.tsx
(handleEnroll), src/src/pages/AnalyticsPage.tsx (fetchAnalytics) and the
grading update quoted from LecturerSubmissionsPage.tsx in
src/SPEAKER_NOTES.md.  Components whose code is absent from the snapshot
(the courses-table policies and the notification fan-out edge functions)
are modelled from the spec and marked as such in their doc comments.
-/

namespace LMS

/-- The app_role enum: admin plus the two values added by the migration. -/
inductive Role where
  | admin
  | lecturer
  | student
  deriving DecidableEq, Repr, Fintype

/-- public.courses (title/description and the lecturer_id column added by the
migration; timestamps omitted as no claim mentions them). -/
structure Course where
  id : Nat
  title : String
  description : Option String
  created_by : Nat
  lecturer_id : Nat
  deriving DecidableEq, Repr

/-- public.enrollments: UNIQUE(student_id, course_id), status TEXT
defaulting to 'active'. -/
structure Enrollment where
  id : Nat
  student_id : Nat
  course_id : Nat
  enrolled_at : Nat
  status : String
  deriving DecidableEq, Repr

/-- public.assignments. -/
structure Assignment where
  id : Nat
  course_id : Nat
  title : String
  description : Option String
  due_date : Nat
  max_grade : Int
  created_by : Nat
  deriving DecidableEq, Repr

/-- public.submissions: UNIQUE(assignment_id, student_id); grade, feedback,
graded_at, graded_by are nullable. -/
structure Submission where
  id : Nat
  assignment_id : Nat
  student_id : Nat
  content : String
  file_url : Option String
  submitted_at : Nat
  grade : Option Int
  feedback : Option String
  graded_at : Option Nat
  graded_by : Option Nat
  deriving DecidableEq, Repr

/-- public.notifications: read BOOLEAN NOT NULL DEFAULT false. -/
structure Notification where
  id : Nat
  user_id : Nat
  type : String
  title : String
  message : String
  read : Bool
  created_at : Nat
  deriving DecidableEq, Repr

/-- A snapshot of the relational store: the five entity tables plus the
user_roles table consulted by has_role. -/
structure DBState where
  user_roles : List (Nat × Role)
  courses : List Course
  enrollments : List Enrollment
  assignments : List Assignment
  submissions : List Submission
  notifications : List Notification
  deriving DecidableEq, Repr

/-- has_role(uid, r): membership in the user_roles table. -/
def has_role (st : DBState) (uid : Nat) (r : Role) : Bool :=
  st.user_roles.any (fun p => p.1 == uid && decide (p.2 = r))

/-! ## RLS policy predicates, one disjunct per CREATE POLICY clause -/

/-- enrollments FOR SELECT: "Students can view their own enrollments"
(auth.uid() = student_id), "Lecturers can view enrollments for their
courses", "Admins can manage all enrollments". -/
def enrollmentsSelectPolicy (uid : Nat) (st : DBState) (e : Enrollment) : Bool :=
  (uid == e.student_id)
  || (has_role st uid Role.lecturer
      && st.courses.any (fun c => c.created_by == uid && c.id == e.course_id))
  || has_role st uid Role.admin

/-- enrollments FOR INSERT: "Students can enroll in courses"
WITH CHECK (auth.uid() = student_id AND has_role(auth.uid(), 'student')),
plus the admin FOR ALL policy. -/
def enrollmentsInsertPolicy (uid : Nat) (st : DBState) (e : Enrollment) : Bool :=
  (uid == e.student_id && has_role st uid Role.student)
  || has_role st uid Role.admin

/-- assignments FOR SELECT: "Students can view assignments for enrolled
courses" — course_id IN (SELECT course_id FROM enrollments WHERE
student_id = auth.uid()) — plus the lecturer-owner and admin FOR ALL
policies.  Note: the first clause has no status filter and no role check. -/
def assignmentsSelectPolicy (uid : Nat) (st : DBState) (a : Assignment) : Bool :=
  (st.enrollments.any (fun e => e.student_id == uid && e.course_id == a.course_id))
  || (has_role st uid Role.lecturer
      && st.courses.any (fun c => c.created_by == uid && c.id == a.course_id))
  || has_role st uid Role.admin

/-- submissions FOR INSERT: "Students can create their own submissions"
WITH CHECK (auth.uid() = student_id AND has_role(auth.uid(), 'student')),
plus the admin FOR ALL policy.  No enrollment condition appears in the
policy. -/
def submissionsInsertPolicy (uid : Nat) (st : DBState) (s : Submission) : Bool :=
  (uid == s.student_id && has_role st uid Role.student)
  || has_role st uid Role.admin

/-- assignment_id IN (SELECT a.id FROM assignments a JOIN courses c ON
a.course_id = c.id WHERE c.created_by = auth.uid()). -/
def lecturerOwnsAssignment (uid : Nat) (st : DBState) (assignment_id : Nat) : Bool :=
  st.assignments.any (fun a =>
    a.id == assignment_id
    && st.courses.any (fun c => c.id == a.course_id && c.created_by == uid))

/-- submissions FOR SELECT: "Students can view their own submissions",
"Lecturers can view submissions for their assignments", admin FOR ALL. -/
def submissionsSelectPolicy (uid : Nat) (st : DBState) (s : Submission) : Bool :=
  (uid == s.student_id)
  || (has_role st uid Role.lecturer && lecturerOwnsAssignment uid st s.assignment_id)
  || has_role st uid Role.admin

/-- submissions FOR UPDATE: "Students can update their own ungraded
submissions" USING (auth.uid() = student_id AND grade IS NULL),
"Lecturers can grade submissions for their assignments", admin FOR ALL. -/
def submissionsUpdatePolicy (uid : Nat) (st : DBState) (s : Submission) : Bool :=
  (uid == s.student_id && s.grade.isNone)
  || (has_role st uid Role.lecturer && lecturerOwnsAssignment uid st s.assignment_id)
  || has_role st uid Role.admin

/-- notifications FOR SELECT: "Users can view their own notifications". -/
def notificationsSelectPolicy (uid : Nat) (_st : DBState) (n : Notification) : Bool :=
  uid == n.user_id

/-- notifications FOR UPDATE: "Users can update their own notifications"
USING (auth.uid() = user_id).  The policy does not constrain which columns
are changed. -/
def notificationsUpdatePolicy (uid : Nat) (_st : DBState) (n : Notification) : Bool :=
  uid == n.user_id

/-- notifications FOR INSERT: RLS is enabled on public.notifications and the
migration declares no INSERT policy, so every external insert is denied
(PostgreSQL default-deny). -/
def notificationsInsertPolicy (_uid : Nat) (_st : DBState) (_n : Notification) : Bool :=
  false

/-- Modelled from the spec: the courses-table RLS policies predate this
migration and are not in the repository snapshot (the migration only adds
the lecturer_id column).  §4.2 gives the Course rules: admin — all
actions; lecturer — update/delete only if principal_id == created_by. -/
def coursesUpdatePolicy (uid : Nat) (st : DBState) (c : Course) : Bool :=
  has_role st uid Role.admin
  || (has_role st uid Role.lecturer && uid == c.created_by)

/-! ## Store operations under RLS semantics -/

/-- Error kinds surfaced by the store: an RLS check violation, a unique
constraint violation, a missing row. -/
inductive ApiError where
  | Forbidden
  | Conflict
  | NotFound
  deriving DecidableEq, Repr

deriving instance DecidableEq for Except

/-- INSERT INTO enrollments: the WITH CHECK clauses are evaluated on the new
row (violation raises an error), then UNIQUE(student_id, course_id) makes a
duplicate pair fail with a conflict. -/
def insertEnrollment (uid : Nat) (st : DBState) (e : Enrollment) :
    Except ApiError DBState :=
  if enrollmentsInsertPolicy uid st e then
    if st.enrollments.any (fun x =>
        x.student_id == e.student_id && x.course_id == e.course_id) then
      Except.error ApiError.Conflict
    else
      Except.ok { st with enrollments := st.enrollments ++ [e] }
  else
    Except.error ApiError.Forbidden

/-- INSERT INTO submissions, with UNIQUE(assignment_id, student_id). -/
def insertSubmission (uid : Nat) (st : DBState) (s : Submission) :
    Except ApiError DBState :=
  if submissionsInsertPolicy uid st s then
    if st.submissions.any (fun x =>
        x.assignment_id == s.assignment_id && x.student_id == s.student_id) then
      Except.error ApiError.Conflict
    else
      Except.ok { st with submissions := st.submissions ++ [s] }
  else
    Except.error ApiError.Forbidden

/-- INSERT INTO notifications by an external principal: no INSERT policy
exists, so the row always violates RLS. -/
def insertNotification (uid : Nat) (st : DBState) (n : Notification) :
    Except ApiError DBState :=
  if notificationsInsertPolicy uid st n then
    Except.ok { st with notifications := st.notifications ++ [n] }
  else
    Except.error ApiError.Forbidden

/-- UPDATE submissions SET ... WHERE id = sid under RLS: rows failing the
USING predicate are silently skipped; each updated row must satisfy the
check on the new row (for these policies WITH CHECK defaults to the USING
expression), otherwise the statement errors. -/
def updateSubmissions (uid : Nat) (st : DBState) (sid : Nat)
    (f : Submission → Submission) : Except ApiError DBState :=
  let touched := st.submissions.filter
    (fun s => s.id == sid && submissionsUpdatePolicy uid st s)
  let updated := st.submissions.map
    (fun s => if s.id == sid && submissionsUpdatePolicy uid st s then f s else s)
  if touched.all (fun s => submissionsUpdatePolicy uid st (f s)) then
    Except.ok { st with submissions := updated }
  else
    Except.error ApiError.Forbidden

/-- UPDATE notifications SET ... WHERE id = nid under RLS, analogous to
updateSubmissions. -/
def updateNotifications (uid : Nat) (st : DBState) (nid : Nat)
    (f : Notification → Notification) : Except ApiError DBState :=
  let touched := st.notifications.filter
    (fun n => n.id == nid && notificationsUpdatePolicy uid st n)
  let updated := st.notifications.map
    (fun n => if n.id == nid && notificationsUpdatePolicy uid st n then f n else n)
  if touched.all (fun n => notificationsUpdatePolicy uid st (f n)) then
    Except.ok { st with notifications := updated }
  else
    Except.error ApiError.Forbidden

/-- SELECT * FROM assignments under RLS: rows failing every USING clause are
filtered out; the statement itself always succeeds. -/
def selectAssignments (uid : Nat) (st : DBState) :
    Except ApiError (List Assignment) :=
  Except.ok (st.assignments.filter (fun a => assignmentsSelectPolicy uid st a))

/-! ## Client operations -/

/-- Result surfaced to the user by the page code: a success toast or a
destructive error toast. -/
inductive ToastKind where
  | success
  | destructive
  deriving DecidableEq, Repr

/-- handleEnroll from StudentDashboard (src/src/pages/EnrollmentsPage.tsx):
inserts { student_id: user.id, course_id } (the table defaults fill status
:= 'active', enrolled_at := now(), id := gen_random_uuid(), modelled by the
eid and et parameters); `if (error) throw error` escalates any store error
to the catch block, which shows a destructive toast. -/
def handleEnroll (uid : Nat) (st : DBState) (courseId eid et : Nat) :
    ToastKind × DBState :=
  match insertEnrollment uid st
      { id := eid, student_id := uid, course_id := courseId,
        enrolled_at := et, status := "active" } with
  | Except.ok st2 => (ToastKind.success, st2)
  | Except.error _ => (ToastKind.destructive, st)

/-- The row update performed by the grading code quoted from
LecturerSubmissionsPage.tsx in src/SPEAKER_NOTES.md: update({ grade,
feedback, graded_by: user.id, graded_at: new Date().toISOString() }). -/
def gradeSubmissionRow (uid t : Nat) (g : Int) (fb : String)
    (s : Submission) : Submission :=
  { s with grade := some g, feedback := some fb,
           graded_by := some uid, graded_at := some t }

/-- The grading operation: the update of SPEAKER_NOTES §6.4 applied through
the submissions RLS update path (.eq("id", submissionId)). -/
def gradeSubmission (uid : Nat) (st : DBState) (sid : Nat) (g : Int)
    (fb : String) (t : Nat) : Except ApiError DBState :=
  updateSubmissions uid st sid (gradeSubmissionRow uid t g fb)

/-! ## Notification fan-out -/

/-- The three mutation events that trigger notifications (§4.5). -/
inductive MutationEvent where
  | assignmentCreated (a : Assignment)
  | submissionCreated (s : Submission)
  | submissionGraded (s : Submission)

/-- Modelled from the spec: the notification fan-out lives in the
assignment-service, submission-service, grading-service and
send-notification edge functions, whose code is not in the repository
snapshot (only the deployment guides describe them).  §4.5: assignment
created → all principals with an active enrollment in that course;
submission created → the lecturer owning the assignment's course;
submission graded → the submitting student; recipients are deduplicated
before insertion. -/
def recipientsOf (st : DBState) : MutationEvent → List Nat
  | MutationEvent.assignmentCreated a =>
      ((st.enrollments.filter
          (fun e => e.course_id == a.course_id && e.status == "active")).map
        (fun e => e.student_id)).dedup
  | MutationEvent.submissionCreated s =>
      ((st.assignments.filter (fun a => a.id == s.assignment_id)).flatMap
        (fun a => (st.courses.filter (fun c => c.id == a.course_id)).map
          (fun c => c.created_by))).dedup
  | MutationEvent.submissionGraded s => [s.student_id].dedup

/-- Modelled from the spec: for each derived recipient, insert exactly one
Notification row (§4.5).  The row ids and timestamp are supplied by the
store; type/title/message come from the triggering service. -/
def fanout (st : DBState) (ev : MutationEvent) (ty ti msg : String)
    (t : Nat) (ids : Nat → Nat) : DBState :=
  let rows := (recipientsOf st ev).map
    (fun uid => { id := ids uid, user_id := uid, type := ty, title := ti,
                  message := msg, read := false, created_at := t : Notification })
  { st with notifications := st.notifications ++ rows }

/-! ## Analytics (src/src/pages/AnalyticsPage.tsx, fetchAnalytics) -/

/-- The ids of the course's assignments: the inner query
assignments.select("id").eq("course_id", courseId). -/
def courseAssignmentIds (st : DBState) (courseId : Nat) : List Nat :=
  (st.assignments.filter (fun a => a.course_id == courseId)).map (fun a => a.id)

/-- submissions.select("grade, assignment_id").eq("student_id", user.id)
.in("assignment_id", courseAssignmentIds). -/
def studentCourseSubmissions (st : DBState) (uid courseId : Nat) :
    List Submission :=
  st.submissions.filter (fun s =>
    s.student_id == uid && (courseAssignmentIds st courseId).contains s.assignment_id)

/-- One entry of the progress view built by fetchAnalytics. -/
structure CourseProgress where
  total_assignments : Nat
  submitted_assignments : Nat
  average_grade : Option ℚ
  deriving Repr

/-- The per-course body of the fetchAnalytics loop: submittedCount :=
submissions.length; grades := submissions.filter(grade !== null).map(grade);
avgGrade := grades.length > 0 ? sum / length : null. -/
def fetchCourseProgress (st : DBState) (uid courseId : Nat) : CourseProgress :=
  let subs := studentCourseSubmissions st uid courseId
  let grades : List Int := subs.filterMap (fun s => s.grade)
  { total_assignments := (st.assignments.filter (fun a => a.course_id == courseId)).length
    submitted_assignments := subs.length
    average_grade :=
      if grades.length > 0 then
        some ((grades.map (fun (g : Int) => (g : ℚ))).sum / (grades.length : ℚ))
      else none }

/-! ## Derived predicates used to state the claims -/

/-- An active enrollment row for (uid, cid), the condition §4.2 requires for
student reads and submission creation. -/
def activeEnrollmentFor (st : DBState) (uid cid : Nat) : Bool :=
  st.enrollments.any (fun e =>
    e.student_id == uid && e.course_id == cid && e.status == "active")

/-- No two rows of the list share a (student_id, course_id) pair: the
UNIQUE(student_id, course_id) constraint of public.enrollments. -/
def pairUniqueEnrollments (l : List Enrollment) : Prop :=
  List.Pairwise
    (fun a b => ¬(a.student_id = b.student_id ∧ a.course_id = b.course_id)) l

/-- grade, graded_at and graded_by are either all set or all null. -/
def gradedConsistent (s : Submission) : Prop :=
  (s.grade.isSome = true ∧ s.graded_at.isSome = true ∧ s.graded_by.isSome = true)
  ∨ (s.grade = none ∧ s.graded_at = none ∧ s.graded_by = none)

/-! ## Helper lemmas -/

theorem exceptIsOk_ok {ε α : Type} (a : α) :
    (Except.ok a : Except ε α).isOk = true := rfl

theorem exceptIsOk_error {ε α : Type} (e : ε) :
    (Except.error e : Except ε α).isOk = false := rfl

theorem has_role_eq_true_iff (st : DBState) (uid : Nat) (r : Role) :
    has_role st uid r = true ↔ (uid, r) ∈ st.user_roles := by
  simp only [has_role, List.any_eq_true, Bool.and_eq_true, beq_iff_eq,
    decide_eq_true_eq]
  constructor
  · rintro ⟨⟨a, b⟩, hp, h1, h2⟩
    simp only at h1 h2
    rw [← h1, ← h2]
    exact hp
  · intro h
    exact ⟨(uid, r), h, rfl, rfl⟩

theorem submissionsInsertPolicy_iff (uid : Nat) (st : DBState) (s : Submission) :
    submissionsInsertPolicy uid st s = true ↔
      ((uid = s.student_id ∧ (uid, Role.student) ∈ st.user_roles) ∨
        (uid, Role.admin) ∈ st.user_roles) := by
  simp only [submissionsInsertPolicy, Bool.or_eq_true, Bool.and_eq_true,
    beq_iff_eq, has_role_eq_true_iff]

theorem submissionDup_iff (st : DBState) (s : Submission) :
    (st.submissions.any fun x =>
        x.assignment_id == s.assignment_id && x.student_id == s.student_id) = true ↔
      ∃ t ∈ st.submissions,
        t.assignment_id = s.assignment_id ∧ t.student_id = s.student_id := by
  simp only [List.any_eq_true, Bool.and_eq_true, beq_iff_eq]

/-! ## C1 -/

/-- Concrete snapshot: student 1, lecturer 2 owning course 10 with
assignment 20, and no enrollment row at all. -/
def stC1 : DBState :=
  { user_roles := [(1, Role.student), (2, Role.lecturer)]
    courses := [{ id := 10, title := "CS101", description := none,
                  created_by := 2, lecturer_id := 2 }]
    enrollments := []
    assignments := [{ id := 20, course_id := 10, title := "HW1",
                      description := none, due_date := 100, max_grade := 100,
                      created_by := 2 }]
    submissions := []
    notifications := [] }

def subC1 : Submission :=
  { id := 30, assignment_id := 20, student_id := 1, content := "answer",
    file_url := none, submitted_at := 50, grade := none, feedback := none,
    graded_at := none, graded_by := none }

/-- C1 counterexample: student 1 has no enrollment (active or otherwise) in
course 10, yet the submission insert for assignment 20 of course 10
succeeds — the submissions INSERT policy checks only auth.uid() =
student_id and the student role, so a create violating the
active-enrollment condition is neither denied nor failed, refuting the
claim as stated. -/
theorem submission_create_without_enrollment_succeeds :
    (insertSubmission 1 stC1 subC1).isOk = true
    ∧ has_role stC1 1 Role.student = true
    ∧ subC1.student_id = 1
    ∧ stC1.assignments = [{ id := 20, course_id := 10, title := "HW1",
                            description := none, due_date := 100,
                            max_grade := 100, created_by := 2 }]
    ∧ activeEnrollmentFor stC1 1 10 = false
    ∧ stC1.enrollments = [] := by
  decide

/-- C1 (amended): creating a Submission succeeds if and only if the acting
principal is the submission's student and holds the student role (or is an
admin), and no prior submission exists for the same (assignment_id,
student_id) pair; no active enrollment in the assignment's course is
required.  Moreover the failure kinds are exact: an otherwise-permitted
create for an existing pair fails with Conflict (the UNIQUE constraint),
and a create failing the identity/role check fails with Forbidden (the RLS
check). -/
theorem submission_create_ok_iff (uid : Nat) (st : DBState) (s : Submission) :
    ((insertSubmission uid st s).isOk = true ↔
      (((uid = s.student_id ∧ (uid, Role.student) ∈ st.user_roles) ∨
          (uid, Role.admin) ∈ st.user_roles) ∧
        ∀ t ∈ st.submissions,
          ¬(t.assignment_id = s.assignment_id ∧ t.student_id = s.student_id)))
    ∧ (((uid = s.student_id ∧ (uid, Role.student) ∈ st.user_roles) ∨
          (uid, Role.admin) ∈ st.user_roles) →
        (∃ t ∈ st.submissions,
          t.assignment_id = s.assignment_id ∧ t.student_id = s.student_id) →
        insertSubmission uid st s = Except.error ApiError.Conflict)
    ∧ (¬((uid = s.student_id ∧ (uid, Role.student) ∈ st.user_roles) ∨
          (uid, Role.admin) ∈ st.user_roles) →
        insertSubmission uid st s = Except.error ApiError.Forbidden) := by
  unfold insertSubmission
  split_ifs with hpol hdup
  · refine ⟨iff_of_false (by simp [exceptIsOk_error]) ?_, ?_, ?_⟩
    · rintro ⟨-, hall⟩
      obtain ⟨t, ht, h1, h2⟩ := (submissionDup_iff st s).mp hdup
      exact hall t ht ⟨h1, h2⟩
    · intro _ _
      rfl
    · intro hnp
      exact absurd ((submissionsInsertPolicy_iff uid st s).mp hpol) hnp
  · refine ⟨iff_of_true (exceptIsOk_ok _) ?_, ?_, ?_⟩
    · refine ⟨(submissionsInsertPolicy_iff uid st s).mp hpol, ?_⟩
      intro t ht hm
      exact hdup ((submissionDup_iff st s).mpr ⟨t, ht, hm.1, hm.2⟩)
    · intro _ hdupP
      exact absurd ((submissionDup_iff st s).mpr hdupP) hdup
    · intro hnp
      exact absurd ((submissionsInsertPolicy_iff uid st s).mp hpol) hnp
  · refine ⟨iff_of_false (by simp [exceptIsOk_error]) ?_, ?_, ?_⟩
    · rintro ⟨hp, -⟩
      exact hpol ((submissionsInsertPolicy_iff uid st s).mpr hp)
    · intro hp _
      exact absurd ((submissionsInsertPolicy_iff uid st s).mpr hp) hpol
    · intro _
      rfl

/-! ## C2 -/

def aC2 : Assignment :=
  { id := 20, course_id := 10, title := "HW1", description := none,
    due_date := 100, max_grade := 100, created_by := 2 }

/-- Snapshot where student 1 has a withdrawn enrollment in course 10. -/
def stC2 : DBState :=
  { user_roles := [(1, Role.student), (2, Role.lecturer)]
    courses := [{ id := 10, title := "CS101", description := none,
                  created_by := 2, lecturer_id := 2 }]
    enrollments := [{ id := 5, student_id := 1, course_id := 10,
                      enrolled_at := 1, status := "withdrawn" }]
    assignments := [aC2]
    submissions := []
    notifications := [] }

/-- C2 counterexample: the assignments SELECT policy has no status filter,
so student 1, whose only enrollment in course 10 is withdrawn (no active
enrollment exists), can still read assignment 20 — refuting the claimed
"if and only if an enrollment row with status 'active' exists". -/
theorem assignment_read_withdrawn_enrollment_allowed :
    assignmentsSelectPolicy 1 stC2 aC2 = true
    ∧ has_role stC2 1 Role.student = true
    ∧ aC2.course_id = 10
    ∧ activeEnrollmentFor stC2 1 10 = false := by
  decide

/-- C2 (amended): for a principal holding neither the lecturer nor the
admin role, the assignments SELECT policy grants read of assignment a
exactly when some enrollment row — of any status — exists for (p.id,
a.course_id). -/
theorem assignment_read_iff_any_enrollment (uid : Nat) (st : DBState)
    (a : Assignment)
    (hlec : has_role st uid Role.lecturer = false)
    (hadm : has_role st uid Role.admin = false) :
    assignmentsSelectPolicy uid st a = true ↔
      ∃ e ∈ st.enrollments, e.student_id = uid ∧ e.course_id = a.course_id := by
  simp only [assignmentsSelectPolicy, hlec, hadm, Bool.false_and, Bool.or_false,
    List.any_eq_true, Bool.and_eq_true, beq_iff_eq]

/-- Witness for C2's amended theorem at the concrete snapshot stC2. -/
theorem assignment_read_iff_any_enrollment_witness :
    assignmentsSelectPolicy 1 stC2 aC2 = true ↔
      ∃ e ∈ stC2.enrollments, e.student_id = 1 ∧ e.course_id = aC2.course_id :=
  assignment_read_iff_any_enrollment 1 stC2 aC2 (by decide) (by decide)

/-! ## C3 -/

/-- A submission already graded 85 by lecturer 2. -/
def subC3 : Submission :=
  { id := 30, assignment_id := 20, student_id := 1, content := "answer",
    file_url := none, submitted_at := 50, grade := some 85,
    feedback := some "Good job", graded_at := some 60, graded_by := some 2 }

/-- Snapshot: student 1 enrolled in course 10 owned by lecturer 2, graded
submission 30 on assignment 20; lecturer 3 owns nothing; 4 is admin. -/
def stC3 : DBState :=
  { user_roles := [(1, Role.student), (2, Role.lecturer),
                   (3, Role.lecturer), (4, Role.admin)]
    courses := [{ id := 10, title := "CS101", description := none,
                  created_by := 2, lecturer_id := 2 }]
    enrollments := [{ id := 5, student_id := 1, course_id := 10,
                      enrolled_at := 1, status := "active" }]
    assignments := [{ id := 20, course_id := 10, title := "HW1",
                      description := none, due_date := 100, max_grade := 100,
                      created_by := 2 }]
    submissions := [subC3]
    notifications := [] }

/-- C3 counterexample: student 1's attempt to update the content of their
graded submission does not return Forbidden — the RLS USING clause merely
filters the graded row out of the update, so the statement succeeds with
zero rows affected and the state unchanged. -/
theorem graded_submission_student_update_not_forbidden :
    updateSubmissions 1 stC3 30 (fun s => { s with content := "changed" })
        = Except.ok stC3
    ∧ subC3.grade = some 85
    ∧ subC3.student_id = 1
    ∧ stC3.submissions = [subC3] := by
  decide

/-- C3 (amended): once a submission s is graded, the submitting student's
update attempt matches no row — it returns success with the state unchanged
(a silent no-op, not an explicit Forbidden) — while the update policy still
holds for the lecturer owning the assignment's course and for admins, and
for no other lecturer. -/
theorem graded_submission_update_permissions
    (st : DBState) (s : Submission) (g : Int)
    (_hmem : s ∈ st.submissions)
    (hg : s.grade = some g)
    (hid : ∀ t ∈ st.submissions, t.id = s.id → t = s)
    (hadm : has_role st s.student_id Role.admin = false)
    (hlec : has_role st s.student_id Role.lecturer = false) :
    submissionsUpdatePolicy s.student_id st s = false
    ∧ (∀ f : Submission → Submission,
        updateSubmissions s.student_id st s.id f = Except.ok st)
    ∧ (∀ l : Nat, has_role st l Role.lecturer = true →
        lecturerOwnsAssignment l st s.assignment_id = true →
        submissionsUpdatePolicy l st s = true)
    ∧ (∀ ad : Nat, has_role st ad Role.admin = true →
        submissionsUpdatePolicy ad st s = true)
    ∧ (∀ l2 : Nat, has_role st l2 Role.admin = false →
        lecturerOwnsAssignment l2 st s.assignment_id = false →
        submissionsUpdatePolicy l2 st s = false) := by
  have hpol1 : submissionsUpdatePolicy s.student_id st s = false := by
    simp [submissionsUpdatePolicy, hg, hadm, hlec]
  refine ⟨hpol1, ?_, ?_, ?_, ?_⟩
  · intro f
    have hcond : ∀ t ∈ st.submissions,
        (t.id == s.id && submissionsUpdatePolicy s.student_id st t) = false := by
      intro t ht
      by_cases hid2 : t.id = s.id
      · rw [hid t ht hid2, hpol1, Bool.and_false]
      · rw [beq_eq_false_iff_ne.mpr hid2, Bool.false_and]
    have hfilter : (st.submissions.filter fun t =>
        t.id == s.id && submissionsUpdatePolicy s.student_id st t) = [] := by
      rw [List.filter_eq_nil_iff]
      intro a ha
      simp [hcond a ha]
    have hmap : (st.submissions.map fun t =>
        if t.id == s.id && submissionsUpdatePolicy s.student_id st t
        then f t else t) = st.submissions := by
      have h2 : ∀ t ∈ st.submissions,
          (if t.id == s.id && submissionsUpdatePolicy s.student_id st t
           then f t else t) = id t := by
        intro t ht
        simp [hcond t ht]
      rw [List.map_congr_left h2, List.map_id]
    unfold updateSubmissions
    simp only [hfilter, hmap, List.all_nil, if_true]
  · intro l hl hown
    simp [submissionsUpdatePolicy, hl, hown]
  · intro ad had
    simp [submissionsUpdatePolicy, had]
  · intro l2 hl2adm hl2own
    simp [submissionsUpdatePolicy, hg, hl2adm, hl2own]

/-- Witness for C3's amended theorem: all five conclusions at stC3. -/
theorem graded_submission_update_permissions_witness :
    submissionsUpdatePolicy subC3.student_id stC3 subC3 = false
    ∧ (∀ f : Submission → Submission,
        updateSubmissions subC3.student_id stC3 subC3.id f = Except.ok stC3)
    ∧ (∀ l : Nat, has_role stC3 l Role.lecturer = true →
        lecturerOwnsAssignment l stC3 subC3.assignment_id = true →
        submissionsUpdatePolicy l stC3 subC3 = true)
    ∧ (∀ ad : Nat, has_role stC3 ad Role.admin = true →
        submissionsUpdatePolicy ad stC3 subC3 = true)
    ∧ (∀ l2 : Nat, has_role stC3 l2 Role.admin = false →
        lecturerOwnsAssignment l2 stC3 subC3.assignment_id = false →
        submissionsUpdatePolicy l2 stC3 subC3 = false) :=
  graded_submission_update_permissions stC3 subC3 85 (by decide) (by decide)
    (by decide) (by decide) (by decide)

/-! ## C4 -/

/-- C4: the enrollments table enforces UNIQUE(student_id, course_id): a
second enroll attempt by an enrolled student hits the constraint and fails
with Conflict, handleEnroll surfaces it as a destructive error toast with
the state unchanged (never a silent success), and any successful insert
preserves pairwise uniqueness of (student_id, course_id), so at most one
row per pair ever exists. -/
theorem enroll_duplicate_conflict_and_unique
    (uid cid eid et : Nat) (st : DBState)
    (hrole : has_role st uid Role.student = true)
    (hdup : ∃ e ∈ st.enrollments, e.student_id = uid ∧ e.course_id = cid) :
    insertEnrollment uid st
        { id := eid, student_id := uid, course_id := cid,
          enrolled_at := et, status := "active" }
      = Except.error ApiError.Conflict
    ∧ handleEnroll uid st cid eid et = (ToastKind.destructive, st)
    ∧ (∀ (uid2 : Nat) (e : Enrollment) (st2 : DBState),
        insertEnrollment uid2 st e = Except.ok st2 →
        pairUniqueEnrollments st.enrollments →
        pairUniqueEnrollments st2.enrollments) := by
  have hany : (st.enrollments.any fun x =>
      x.student_id == uid && x.course_id == cid) = true := by
    obtain ⟨e, he, h1, h2⟩ := hdup
    exact List.any_eq_true.mpr ⟨e, he, by simp [h1, h2]⟩
  have hins : insertEnrollment uid st
      { id := eid, student_id := uid, course_id := cid,
        enrolled_at := et, status := "active" }
      = Except.error ApiError.Conflict := by
    unfold insertEnrollment
    rw [if_pos, if_pos]
    · exact hany
    · simp [enrollmentsInsertPolicy, hrole]
  refine ⟨hins, ?_, ?_⟩
  · unfold handleEnroll
    rw [hins]
  · intro uid2 e st2 hok huniq
    unfold insertEnrollment at hok
    split_ifs at hok with hpol hdup2
    · have hst2 : st2 = { st with enrollments := st.enrollments ++ [e] } := by
        injection hok with h
        exact h.symm
      rw [hst2]
      unfold pairUniqueEnrollments at huniq ⊢
      rw [List.pairwise_append]
      refine ⟨huniq, List.pairwise_singleton _ _, ?_⟩
      intro a ha b hb hab
      have hb1 : b = e := by simpa using hb
      refine hdup2 (List.any_eq_true.mpr ⟨a, ha, ?_⟩)
      rw [hb1] at hab
      simp [hab.1, hab.2]

/-- Witness for C4 at a snapshot where student 1 is already enrolled in
course 10. -/
theorem enroll_duplicate_conflict_and_unique_witness :
    insertEnrollment 1 stC3
        { id := 6, student_id := 1, course_id := 10,
          enrolled_at := 2, status := "active" }
      = Except.error ApiError.Conflict
    ∧ handleEnroll 1 stC3 10 6 2 = (ToastKind.destructive, stC3)
    ∧ (∀ (uid2 : Nat) (e : Enrollment) (st2 : DBState),
        insertEnrollment uid2 stC3 e = Except.ok st2 →
        pairUniqueEnrollments stC3.enrollments →
        pairUniqueEnrollments st2.enrollments) :=
  enroll_duplicate_conflict_and_unique 1 10 6 2 stC3 (by decide)
    ⟨{ id := 5, student_id := 1, course_id := 10, enrolled_at := 1,
       status := "active" }, by decide, rfl, rfl⟩

/-! ## C5 -/

def aC5 : Assignment :=
  { id := 20, course_id := 10, title := "HW1", description := none,
    due_date := 100, max_grade := 100, created_by := 9 }

/-- Snapshot: student 2 is enrolled in nothing; course 10 (lecturer 9)
has assignment 20. -/
def stC5 : DBState :=
  { user_roles := [(2, Role.student), (9, Role.lecturer)]
    courses := [{ id := 10, title := "CS101", description := none,
                  created_by := 9, lecturer_id := 9 }]
    enrollments := []
    assignments := [aC5]
    submissions := []
    notifications := [] }

/-- C5 counterexample: student 2 is not enrolled in course 10 and is not
authorized for assignment 20, yet reading the assignments table returns a
successful empty result — not a Forbidden error — so the claim that a
failed policy check on a read yields an explicit denial is false. -/
theorem unauthorized_read_returns_empty_not_denied :
    selectAssignments 2 stC5 = Except.ok []
    ∧ assignmentsSelectPolicy 2 stC5 aC5 = false
    ∧ stC5.assignments = [aC5] := by
  decide

/-- C5 (amended): a read never returns an explicit denial — RLS silently
filters unauthorized rows, so a principal with no enrollment row and
neither the lecturer nor the admin role receives a successful empty list,
indistinguishable from authorized-but-empty. -/
theorem unenrolled_read_silently_empty (uid : Nat) (st : DBState)
    (h1 : ∀ e ∈ st.enrollments, e.student_id ≠ uid)
    (h2 : has_role st uid Role.lecturer = false)
    (h3 : has_role st uid Role.admin = false) :
    selectAssignments uid st = Except.ok [] := by
  unfold selectAssignments
  rw [List.filter_eq_nil_iff.mpr]
  intro a _
  simp only [assignmentsSelectPolicy, h2, h3, Bool.false_and, Bool.or_false,
    Bool.not_eq_true, List.any_eq_false]
  intro e he
  simp [h1 e he]

/-- Witness for C5's amended theorem at stC5. -/
theorem unenrolled_read_silently_empty_witness :
    selectAssignments 2 stC5 = Except.ok [] :=
  unenrolled_read_silently_empty 2 stC5 (by decide) (by decide) (by decide)

/-! ## C6 -/

/-- C6: for a principal whose single role in user_roles is r, the Course
update permission holds exactly when r is admin, or r is lecturer and the
principal is the course's creator. -/
theorem course_update_policy_iff (uid : Nat) (st : DBState) (c : Course)
    (r : Role)
    (hr : (uid, r) ∈ st.user_roles)
    (huniq : ∀ r2 : Role, (uid, r2) ∈ st.user_roles → r2 = r) :
    coursesUpdatePolicy uid st c = true ↔
      (r = Role.admin ∨ (r = Role.lecturer ∧ uid = c.created_by)) := by
  have hrole : ∀ r2 : Role, has_role st uid r2 = true ↔ r2 = r := by
    intro r2
    rw [has_role_eq_true_iff]
    constructor
    · exact huniq r2
    · intro h
      rw [h]
      exact hr
  simp only [coursesUpdatePolicy, Bool.or_eq_true, Bool.and_eq_true,
    beq_iff_eq, hrole]
  constructor
  · rintro (h | ⟨h, h2⟩)
    · exact Or.inl h.symm
    · exact Or.inr ⟨h.symm, h2⟩
  · rintro (h | ⟨h, h2⟩)
    · exact Or.inl h.symm
    · exact Or.inr ⟨h.symm, h2⟩

def cC6 : Course :=
  { id := 10, title := "CS101", description := none,
    created_by := 2, lecturer_id := 2 }

def stC6 : DBState :=
  { user_roles := [(2, Role.lecturer)], courses := [cC6], enrollments := []
    assignments := [], submissions := [], notifications := [] }

/-- Witness for C6 with lecturer 2 owning course 10. -/
theorem course_update_policy_iff_witness :
    coursesUpdatePolicy 2 stC6 cC6 = true ↔
      (Role.lecturer = Role.admin ∨
        (Role.lecturer = Role.lecturer ∧ 2 = cC6.created_by)) :=
  course_update_policy_iff 2 stC6 cC6 Role.lecturer (by decide) (by decide)

/-! ## C7 -/

def nC7 : Notification :=
  { id := 40, user_id := 1, type := "info", title := "Assignment graded",
    message := "m", read := false, created_at := 5 }

def stC7 : DBState :=
  { user_roles := [(1, Role.student)], courses := [], enrollments := []
    assignments := [], submissions := [], notifications := [nC7] }

/-- C7 counterexample: principal 1 updates the title — not the read flag —
of their own notification 40, and the update succeeds: the notifications
UPDATE policy constrains only user_id, so read is not the only externally
mutable field, refuting the claim. -/
theorem notification_title_update_succeeds :
    updateNotifications 1 stC7 40 (fun n => { n with title := "changed" })
      = Except.ok { stC7 with notifications := [{ nC7 with title := "changed" }] }
    ∧ nC7.title = "Assignment graded"
    ∧ nC7.read = false
    ∧ ({ nC7 with title := "changed" } : Notification).read = false := by
  decide

/-- C7 (amended): no external principal can insert a notification (RLS is
enabled and the migration declares no INSERT policy, so only the backend
fan-out can create rows), and an external update succeeds exactly when
every targeted row is the principal's own and stays so — any field of an
owned row may be changed, not only the read flag. -/
theorem notification_insert_denied_update_own_rows :
    (∀ (uid : Nat) (st : DBState) (n : Notification),
        insertNotification uid st n = Except.error ApiError.Forbidden)
    ∧ (∀ (uid : Nat) (st : DBState) (nid : Nat)
        (f : Notification → Notification),
        (updateNotifications uid st nid f).isOk = true ↔
          ∀ n ∈ st.notifications, n.id = nid → uid = n.user_id →
            uid = (f n).user_id) := by
  constructor
  · intro uid st n
    rfl
  · intro uid st nid f
    simp only [updateNotifications]
    split_ifs with h
    · refine iff_of_true (exceptIsOk_ok _) ?_
      intro n hn hid huid
      have hmem : n ∈ st.notifications.filter
          (fun m => m.id == nid && notificationsUpdatePolicy uid st m) := by
        rw [List.mem_filter]
        exact ⟨hn, by simp [notificationsUpdatePolicy, hid, huid]⟩
      have := List.all_eq_true.mp h n hmem
      simpa [notificationsUpdatePolicy] using this
    · refine iff_of_false (by simp [exceptIsOk_error]) ?_
      intro hall
      refine h (List.all_eq_true.mpr ?_)
      intro n hn
      rw [List.mem_filter] at hn
      obtain ⟨hn1, hn2⟩ := hn
      simp only [notificationsUpdatePolicy, Bool.and_eq_true, beq_iff_eq] at hn2
      simp only [notificationsUpdatePolicy, beq_iff_eq]
      exact hall n hn1 hn2.1 hn2.2

/-! ## C8 -/

/-- C8: the grading update of LecturerSubmissionsPage sets grade, graded_at
and graded_by in one row update: after a successful grading operation every
row still satisfies the all-or-none invariant on the three fields, and
every row it changed has all three non-null. -/
theorem grading_sets_grade_fields_together
    (uid : Nat) (st : DBState) (sid : Nat) (g : Int) (fb : String) (t : Nat)
    (st2 : DBState)
    (hinv : ∀ s ∈ st.submissions, gradedConsistent s)
    (hok : gradeSubmission uid st sid g fb t = Except.ok st2) :
    ∀ s2 ∈ st2.submissions,
      gradedConsistent s2 ∧
      (s2 ∈ st.submissions ∨
        (s2.grade = some g ∧ s2.graded_at = some t ∧ s2.graded_by = some uid)) := by
  simp only [gradeSubmission, updateSubmissions] at hok
  split_ifs at hok with h
  · injection hok with h2
    subst h2
    intro s2 hs2
    simp only [List.mem_map] at hs2
    obtain ⟨s0, hs0, hs0eq⟩ := hs2
    by_cases hc : (s0.id == sid && submissionsUpdatePolicy uid st s0) = true
    · rw [if_pos hc] at hs0eq
      rw [← hs0eq]
      exact ⟨Or.inl (by simp [gradeSubmissionRow]),
        Or.inr (by simp [gradeSubmissionRow])⟩
    · rw [if_neg hc] at hs0eq
      rw [← hs0eq]
      exact ⟨hinv s0 hs0, Or.inl hs0⟩

/-- Ungraded submission used for the C8 witness. -/
def subC8 : Submission :=
  { id := 30, assignment_id := 20, student_id := 1, content := "answer",
    file_url := none, submitted_at := 50, grade := none, feedback := none,
    graded_at := none, graded_by := none }

def stC8 : DBState :=
  { user_roles := [(1, Role.student), (2, Role.lecturer)]
    courses := [{ id := 10, title := "CS101", description := none,
                  created_by := 2, lecturer_id := 2 }]
    enrollments := [{ id := 5, student_id := 1, course_id := 10,
                      enrolled_at := 1, status := "active" }]
    assignments := [{ id := 20, course_id := 10, title := "HW1",
                      description := none, due_date := 100, max_grade := 100,
                      created_by := 2 }]
    submissions := [subC8]
    notifications := [] }

/-- subC8 after lecturer 2 grades it 85 / "Good job" at time 60. -/
def subC8g : Submission :=
  { subC8 with
    grade := some 85
    feedback := some "Good job"
    graded_by := some 2
    graded_at := some 60 }

/-- stC8 after lecturer 2 grades submission 30 with 85 / "Good job". -/
def stC8g : DBState :=
  { stC8 with submissions := [subC8g] }

instance decidableGradedConsistent (s : Submission) :
    Decidable (gradedConsistent s) := by
  unfold gradedConsistent
  infer_instance

/-- Witness for C8: lecturer 2 grades submission 30 at stC8, and the graded
row subC8g has grade, graded_at and graded_by all set. -/
theorem grading_sets_grade_fields_together_witness :
    gradedConsistent subC8g ∧
    (subC8g ∈ stC8.submissions ∨
      (subC8g.grade = some 85 ∧ subC8g.graded_at = some 60 ∧
        subC8g.graded_by = some 2)) :=
  grading_sets_grade_fields_together 2 stC8 30 85 "Good job" 60 stC8g
    (by decide) (by decide) subC8g (by decide)

/-! ## C9 -/

theorem recipientsOf_nodup (st : DBState) (ev : MutationEvent) :
    (recipientsOf st ev).Nodup := by
  cases ev <;> simp only [recipientsOf] <;> exact List.nodup_dedup _

/-- C9: for any triggering mutation event, the fan-out inserts exactly one
notification row per distinct derived recipient: every principal in the
deduplicated recipient set gains exactly one row, every other principal
gains none. -/
theorem fanout_one_notification_per_recipient (st : DBState)
    (ev : MutationEvent) (ty ti msg : String) (t : Nat) (ids : Nat → Nat)
    (uid : Nat) :
    ((fanout st ev ty ti msg t ids).notifications.filter
        (fun n => n.user_id == uid)).length
      = (st.notifications.filter (fun n => n.user_id == uid)).length
        + (if uid ∈ recipientsOf st ev then 1 else 0) := by
  simp only [fanout, List.filter_append, List.length_append]
  congr 1
  rw [List.filter_map, List.length_map, ← List.countP_eq_length_filter]
  have hcount : List.countP
      ((fun n : Notification => n.user_id == uid) ∘
        (fun r => { id := ids r, user_id := r, type := ty, title := ti,
                    message := msg, read := false, created_at := t }))
      (recipientsOf st ev) = List.count uid (recipientsOf st ev) := rfl
  rw [hcount]
  split_ifs with hm
  · exact List.count_eq_one_of_mem (recipientsOf_nodup st ev) hm
  · exact List.count_eq_zero_of_not_mem hm

/-! ## C10 -/

theorem length_filter_isSome_add_isNone (l : List Submission) :
    l.length = (l.filter (fun s => s.grade.isSome)).length
      + (l.filter (fun s => s.grade.isNone)).length := by
  induction l with
  | nil => rfl
  | cons a l ih =>
    cases hg : a.grade <;>
      simp only [List.filter_cons, hg, Option.isSome_none, Option.isNone_none,
        Option.isSome_some, Option.isNone_some, if_true, if_false,
        List.length_cons, Bool.false_eq_true, Bool.true_eq_false] <;>
      omega

/-- C10: in the student progress view, average_grade is null exactly when
the student has no graded submission in the course, otherwise it is the
arithmetic mean of the non-null grades (q * count = sum); and
submitted_assignments counts graded and ungraded submissions alike. -/
theorem analytics_progress_characterization (st : DBState) (uid cid : Nat) :
    ((fetchCourseProgress st uid cid).average_grade = none ↔
      ∀ s ∈ studentCourseSubmissions st uid cid, s.grade = none)
    ∧ (∀ q : ℚ, (fetchCourseProgress st uid cid).average_grade = some q →
        ((studentCourseSubmissions st uid cid).filterMap (fun s => s.grade)) ≠ []
        ∧ q * ((((studentCourseSubmissions st uid cid).filterMap
              (fun s => s.grade)).length : ℚ))
            = (((studentCourseSubmissions st uid cid).filterMap
                (fun s => s.grade)).map (fun (g : Int) => (g : ℚ))).sum)
    ∧ (fetchCourseProgress st uid cid).submitted_assignments
        = ((studentCourseSubmissions st uid cid).filter
            (fun s => s.grade.isSome)).length
          + ((studentCourseSubmissions st uid cid).filter
              (fun s => s.grade.isNone)).length := by
  refine ⟨?_, ?_, ?_⟩
  · simp only [fetchCourseProgress]
    split_ifs with h
    · refine iff_of_false (by simp) ?_
      intro hall
      have hnil : ((studentCourseSubmissions st uid cid).filterMap
          (fun s => s.grade)) = [] := List.filterMap_eq_nil_iff.mpr hall
      rw [hnil] at h
      simp at h
    · refine iff_of_true rfl ?_
      have hlen : ((studentCourseSubmissions st uid cid).filterMap
          (fun s => s.grade)).length = 0 := by omega
      intro s hs
      exact List.filterMap_eq_nil_iff.mp (List.length_eq_zero.mp hlen) s hs
  · intro q hq
    simp only [fetchCourseProgress] at hq
    split_ifs at hq with h
    · have hq2 : q = ((((studentCourseSubmissions st uid cid).filterMap
          (fun s => s.grade)).map (fun (g : Int) => (g : ℚ))).sum)
          / ((((studentCourseSubmissions st uid cid).filterMap
            (fun s => s.grade)).length : ℚ)) := (Option.some.inj hq).symm
      constructor
      · intro hnil
        rw [hnil] at h
        simp at h
      · rw [hq2, div_mul_cancel₀]
        exact Nat.cast_ne_zero.mpr (Nat.pos_iff_ne_zero.mp h)
  · simp only [fetchCourseProgress]
    exact length_filter_isSome_add_isNone _

end LMS
